import Mathlib

/-!
# Framify: shallow embedding and verification

A shallow embedding, in Lean 4, of the option-normalization, progress
computation, status-color mapping, avatar/background loading and word-wrap
logic of the Framify card generators (`ProfileCard`, `WelcomeCard`,
`RankCard`), together with theorems settling the specification claims.

Modelling conventions:
* JavaScript numbers are modelled by `JSNum`: a rational (`ℚ`) for finite
  values plus `posInf`, `negInf` and `nan`, with IEEE-style propagation in
  the arithmetic operations the code uses.  Negative zero is not
  distinguished from zero (no claim depends on it).  Caller-supplied
  numeric option fields are modelled as plain rationals.
* Optional option fields are `Option` types; the JavaScript `x || d`
  default pattern is `jsOrStr` / `jsOrNum` (falsy strings are `""`, falsy
  numbers are `0`).
* Decoded bitmaps are opaque `Image` values; image decoding and HTTP
  fetching are oracles passed in as explicit parameters.
-/

/-- A JavaScript (IEEE-754 double) number, modelled as an exact rational
plus the special values `+∞`, `-∞` and `NaN`. -/
inductive JSNum where
  | num (q : ℚ)
  | posInf
  | negInf
  | nan
deriving DecidableEq, Repr

namespace JSNum

/-- JavaScript division `a / b`, including division by zero
(`x/0 = ±∞` for `x ≠ 0`, `0/0 = NaN`) and `NaN` propagation. -/
def div : JSNum → JSNum → JSNum
  | nan, _ => nan
  | _, nan => nan
  | num a, num b =>
      if b = 0 then (if a = 0 then nan else if 0 < a then posInf else negInf)
      else num (a / b)
  | num _, posInf => num 0
  | num _, negInf => num 0
  | posInf, num b => if 0 ≤ b then posInf else negInf
  | negInf, num b => if 0 ≤ b then negInf else posInf
  | posInf, posInf => nan
  | posInf, negInf => nan
  | negInf, posInf => nan
  | negInf, negInf => nan

/-- JavaScript multiplication `a * b`, with `±∞ * 0 = NaN` and `NaN`
propagation. -/
def mul : JSNum → JSNum → JSNum
  | nan, _ => nan
  | _, nan => nan
  | num a, num b => num (a * b)
  | num a, posInf => if a = 0 then nan else if 0 < a then posInf else negInf
  | num a, negInf => if a = 0 then nan else if 0 < a then negInf else posInf
  | posInf, num b => if b = 0 then nan else if 0 < b then posInf else negInf
  | negInf, num b => if b = 0 then nan else if 0 < b then negInf else posInf
  | posInf, posInf => posInf
  | posInf, negInf => negInf
  | negInf, posInf => negInf
  | negInf, negInf => posInf

/-- `Math.max(a, b)`: `NaN` if either argument is `NaN`. -/
def jsMax : JSNum → JSNum → JSNum
  | nan, _ => nan
  | _, nan => nan
  | posInf, _ => posInf
  | _, posInf => posInf
  | negInf, b => b
  | a, negInf => a
  | num a, num b => num (max a b)

/-- `Math.min(a, b)`: `NaN` if either argument is `NaN`. -/
def jsMin : JSNum → JSNum → JSNum
  | nan, _ => nan
  | _, nan => nan
  | negInf, _ => negInf
  | _, negInf => negInf
  | posInf, b => b
  | a, posInf => a
  | num a, num b => num (min a b)

end JSNum

/-- The JavaScript `s || d` default pattern on an optional string field:
`undefined` and the empty string (the only falsy strings) fall back to the
default. -/
def jsOrStr (v : Option String) (d : String) : String :=
  match v with
  | none => d
  | some s => if s = "" then d else s

/-- The JavaScript `x || d` default pattern on an optional numeric field:
`undefined` and `0` fall back to the default.  (Caller-supplied numbers are
modelled as rationals, so a caller-supplied `NaN` is out of scope.) -/
def jsOrNum (v : Option ℚ) (d : ℚ) : ℚ :=
  match v with
  | none => d
  | some x => if x = 0 then d else x

/-- An opaque decoded bitmap (the `@napi-rs/canvas` `Image`). -/
structure Image where
  imageId : Nat
deriving DecidableEq, Repr

/-- The optional `padding` sub-record shared by all three option types
(`{ top?, right?, bottom?, left? }`). -/
structure PaddingOptions where
  top : Option ℚ
  right : Option ℚ
  bottom : Option ℚ
  left : Option ℚ
deriving DecidableEq, Repr

/-- A fully-populated padding record. -/
structure Padding where
  top : ℚ
  right : ℚ
  bottom : ℚ
  left : ℚ
deriving DecidableEq, Repr

/-- Normalize an optional padding record against a uniform default `d`
(`options.padding?.top || d`, and so on for all four sides). -/
def normalizePadding (p : Option PaddingOptions) (d : ℚ) : Padding :=
  { top := jsOrNum (p.bind PaddingOptions.top) d
    right := jsOrNum (p.bind PaddingOptions.right) d
    bottom := jsOrNum (p.bind PaddingOptions.bottom) d
    left := jsOrNum (p.bind PaddingOptions.left) d }

/-! ## RankCard (src/images/RankCard.ts, options in RankCardOptions.ts) -/

/-- The `fontSize` sub-record of `RankCardOptions`. -/
structure RankFontSizeOptions where
  username : Option ℚ
  rank : Option ℚ
  level : Option ℚ
  xp : Option ℚ
deriving DecidableEq, Repr

/-- Fully-populated rank-card font sizes. -/
structure RankFontSize where
  username : ℚ
  rank : ℚ
  level : ℚ
  xp : ℚ
deriving DecidableEq, Repr

/-- `RankCardOptions` (src/types/RankCardOptions.ts): required fields plus
optional fields modelled as `Option`. -/
structure RankCardOptions where
  username : String
  discriminator : Option String
  avatarUrl : String
  rank : ℚ
  level : ℚ
  currentXP : ℚ
  nextLevelXP : ℚ
  progress : Option ℚ
  backgroundColor : Option String
  textColor : Option String
  accentColor : Option String
  rankColor : Option String
  levelColor : Option String
  progressBarColor : Option String
  progressBarBackgroundColor : Option String
  backgroundImage : Option String
  fontSize : Option RankFontSizeOptions
  padding : Option PaddingOptions
  borderRadius : Option ℚ
  showProgress : Option Bool
deriving DecidableEq, Repr

/-- The fully-populated configuration `Required<RankCardOptions>` built by
the `RankCard` constructor.  `progress` is a `JSNum` because the derived
value can be `NaN` or come from an unclamped division. -/
structure RankCardConfig where
  username : String
  discriminator : String
  avatarUrl : String
  rank : ℚ
  level : ℚ
  currentXP : ℚ
  nextLevelXP : ℚ
  progress : JSNum
  backgroundColor : String
  textColor : String
  accentColor : String
  rankColor : String
  levelColor : String
  progressBarColor : String
  progressBarBackgroundColor : String
  backgroundImage : String
  fontSize : RankFontSize
  padding : Padding
  borderRadius : ℚ
  showProgress : Bool
deriving DecidableEq, Repr

/-- `RankCard.calculateProgress`:
`Math.min(100, Math.max(0, (currentXP / nextLevelXP) * 100))`. -/
def calculateProgress (currentXP nextLevelXP : JSNum) : JSNum :=
  JSNum.jsMin (JSNum.num 100)
    (JSNum.jsMax (JSNum.num 0) ((currentXP.div nextLevelXP).mul (JSNum.num 100)))

/-- The option-normalization performed by the `RankCard` constructor.
`progress: options.progress || this.calculateProgress(...)`: a supplied
zero (falsy) falls back to the derived value. -/
def rankNormalize (o : RankCardOptions) : RankCardConfig :=
  { username := o.username
    discriminator := jsOrStr o.discriminator "#0000"
    avatarUrl := o.avatarUrl
    rank := o.rank
    level := o.level
    currentXP := o.currentXP
    nextLevelXP := o.nextLevelXP
    progress :=
      match o.progress with
      | none => calculateProgress (JSNum.num o.currentXP) (JSNum.num o.nextLevelXP)
      | some p =>
          if p = 0 then calculateProgress (JSNum.num o.currentXP) (JSNum.num o.nextLevelXP)
          else JSNum.num p
    backgroundColor := jsOrStr o.backgroundColor "#2C2F33"
    textColor := jsOrStr o.textColor "#FFFFFF"
    accentColor := jsOrStr o.accentColor "#7289DA"
    rankColor := jsOrStr o.rankColor "#FFD700"
    levelColor := jsOrStr o.levelColor "#7289DA"
    progressBarColor := jsOrStr o.progressBarColor "#43B581"
    progressBarBackgroundColor := jsOrStr o.progressBarBackgroundColor "#23272A"
    backgroundImage := jsOrStr o.backgroundImage ""
    fontSize :=
      { username := jsOrNum (o.fontSize.bind RankFontSizeOptions.username) 32
        rank := jsOrNum (o.fontSize.bind RankFontSizeOptions.rank) 24
        level := jsOrNum (o.fontSize.bind RankFontSizeOptions.level) 20
        xp := jsOrNum (o.fontSize.bind RankFontSizeOptions.xp) 16 }
    padding := normalizePadding o.padding 30
    borderRadius := jsOrNum o.borderRadius 10
    showProgress := o.showProgress.getD true }

/-- The progress-bar fill width computed in `RankCard.drawXPInfo`:
`progressWidth = (progressBarWidth * progress) / 100` where
`progressBarWidth = canvas.width - (left + avatarSize + 60) - right`
with `canvas.width = 900` and `avatarSize = 80`. -/
def rankProgressFillWidth (c : RankCardConfig) : JSNum :=
  ((JSNum.num (900 - (c.padding.left + 80 + 60) - c.padding.right)).mul c.progress).div
    (JSNum.num 100)

/-! ## ProfileCard (unnamed source file, ProfileCard class;
options in src/types/ProfileCardOptions.ts) -/

/-- The `fontSize` sub-record of `ProfileCardOptions`. -/
structure ProfileFontSizeOptions where
  username : Option ℚ
  bio : Option ℚ
  badges : Option ℚ
deriving DecidableEq, Repr

/-- Fully-populated profile-card font sizes. -/
structure ProfileFontSize where
  username : ℚ
  bio : ℚ
  badges : ℚ
deriving DecidableEq, Repr

/-- `ProfileCardOptions` (src/types/ProfileCardOptions.ts).  The `status`
union type is modelled as a string, as the status-color map is total on
strings. -/
structure ProfileCardOptions where
  username : String
  discriminator : Option String
  avatarUrl : String
  status : Option String
  statusColor : Option String
  bio : Option String
  badges : Option (List String)
  backgroundColor : Option String
  textColor : Option String
  accentColor : Option String
  backgroundImage : Option String
  fontSize : Option ProfileFontSizeOptions
  padding : Option PaddingOptions
  borderRadius : Option ℚ
  layout : Option String
deriving DecidableEq, Repr

/-- The fully-populated configuration `Required<ProfileCardOptions>`. -/
structure ProfileCardConfig where
  username : String
  discriminator : String
  avatarUrl : String
  status : String
  statusColor : String
  bio : String
  badges : List String
  backgroundColor : String
  textColor : String
  accentColor : String
  backgroundImage : String
  fontSize : ProfileFontSize
  padding : Padding
  borderRadius : ℚ
  layout : String
deriving DecidableEq, Repr

/-- `ProfileCard.getStatusColor`: the status-to-color `switch` with a
default case. -/
def getStatusColor (status : String) : String :=
  if status = "online" then "#43B581"
  else if status = "idle" then "#FAA61A"
  else if status = "dnd" then "#F04747"
  else if status = "offline" then "#747F8D"
  else "#747F8D"

/-- The option-normalization performed by the `ProfileCard` constructor.
Note `badges: options.badges || []` keeps a supplied empty array (arrays
are truthy in JavaScript), so it is a plain `getD`. -/
def profileNormalize (o : ProfileCardOptions) : ProfileCardConfig :=
  { username := o.username
    discriminator := jsOrStr o.discriminator "#0000"
    avatarUrl := o.avatarUrl
    status := jsOrStr o.status "online"
    statusColor :=
      jsOrStr o.statusColor (getStatusColor (jsOrStr o.status "online"))
    bio := jsOrStr o.bio ""
    badges := o.badges.getD []
    backgroundColor := jsOrStr o.backgroundColor "#2C2F33"
    textColor := jsOrStr o.textColor "#FFFFFF"
    accentColor := jsOrStr o.accentColor "#7289DA"
    backgroundImage := jsOrStr o.backgroundImage ""
    fontSize :=
      { username := jsOrNum (o.fontSize.bind ProfileFontSizeOptions.username) 32
        bio := jsOrNum (o.fontSize.bind ProfileFontSizeOptions.bio) 16
        badges := jsOrNum (o.fontSize.bind ProfileFontSizeOptions.badges) 14 }
    padding := normalizePadding o.padding 30
    borderRadius := jsOrNum o.borderRadius 10
    layout := jsOrStr o.layout "vertical" }

/-! ## WelcomeCard (unnamed source file, WelcomeCard class;
options in src/types/WelcomeImageOptions.ts) -/

/-- The `fontSize` sub-record of `WelcomeImageOptions`. -/
structure WelcomeFontSizeOptions where
  title : Option ℚ
  subtitle : Option ℚ
  memberCount : Option ℚ
deriving DecidableEq, Repr

/-- Fully-populated welcome-card font sizes. -/
structure WelcomeFontSize where
  title : ℚ
  subtitle : ℚ
  memberCount : ℚ
deriving DecidableEq, Repr

/-- `WelcomeImageOptions` (src/types/WelcomeImageOptions.ts).  Note the
interface does declare an optional `backgroundImage` field (line 10). -/
structure WelcomeImageOptions where
  username : String
  discriminator : Option String
  avatarUrl : String
  serverName : String
  memberCount : Option ℚ
  backgroundColor : Option String
  textColor : Option String
  accentColor : Option String
  backgroundImage : Option String
  fontSize : Option WelcomeFontSizeOptions
  padding : Option PaddingOptions
  borderRadius : Option ℚ
deriving DecidableEq, Repr

/-- The fully-populated configuration `Required<WelcomeImageOptions>`. -/
structure WelcomeCardConfig where
  username : String
  discriminator : String
  avatarUrl : String
  serverName : String
  memberCount : ℚ
  backgroundColor : String
  textColor : String
  accentColor : String
  backgroundImage : String
  fontSize : WelcomeFontSize
  padding : Padding
  borderRadius : ℚ
deriving DecidableEq, Repr

/-- The option-normalization performed by the `WelcomeCard` constructor. -/
def welcomeNormalize (o : WelcomeImageOptions) : WelcomeCardConfig :=
  { username := o.username
    discriminator := jsOrStr o.discriminator "#0000"
    avatarUrl := o.avatarUrl
    serverName := o.serverName
    memberCount := jsOrNum o.memberCount 0
    backgroundColor := jsOrStr o.backgroundColor "#2C2F33"
    textColor := jsOrStr o.textColor "#FFFFFF"
    accentColor := jsOrStr o.accentColor "#7289DA"
    backgroundImage := jsOrStr o.backgroundImage ""
    fontSize :=
      { title := jsOrNum (o.fontSize.bind WelcomeFontSizeOptions.title) 60
        subtitle := jsOrNum (o.fontSize.bind WelcomeFontSizeOptions.subtitle) 28
        memberCount := jsOrNum (o.fontSize.bind WelcomeFontSizeOptions.memberCount) 20 }
    padding := normalizePadding o.padding 60
    borderRadius := jsOrNum o.borderRadius 15 }

/-! ## Avatar / background loading

`loadAvatar` is textually identical in `ProfileCard`, `WelcomeCard` and
`RankCard`, so it is embedded once.  The HTTP response and the image
decoder are explicit oracles. -/

/-- `startsWithChars needle hay`: the char list `hay` starts with
`needle`. -/
def startsWithChars : List Char → List Char → Bool
  | [], _ => true
  | _ :: _, [] => false
  | a :: as, b :: bs => a = b && startsWithChars as bs

/-- `occursInChars needle hay`: `needle` occurs as a contiguous run inside
`hay` (the semantics of JavaScript `String.prototype.includes`). -/
def occursInChars (needle : List Char) : List Char → Bool
  | [] => startsWithChars needle []
  | b :: bs => startsWithChars needle (b :: bs) || occursInChars needle bs

/-- JavaScript `hay.includes(needle)` on strings. -/
def strIncludes (hay needle : String) : Bool :=
  occursInChars needle.data hay.data

/-- JavaScript `s.startsWith(p)`. -/
def strStartsWith (s p : String) : Bool :=
  startsWithChars p.data s.data

/-- The local-path test in `loadAvatar`:
`url.startsWith('./') || url.startsWith('/') || !url.includes('://')`. -/
def isLocalPath (url : String) : Bool :=
  strStartsWith url "./" || strStartsWith url "/" || !strIncludes url "://"

/-- An HTTP response as seen through `node-fetch`: numeric status and the
reason-phrase `statusText`.  The body is left abstract (only its decode
result matters, which is a separate oracle). -/
structure HttpResponse where
  status : Nat
  statusText : String
deriving DecidableEq, Repr

/-- `node-fetch`'s `Response.ok`: status in the range [200, 300). -/
def respOk (r : HttpResponse) : Bool :=
  200 ≤ r.status && r.status < 300

/-- The message of the error thrown on a non-success HTTP status:
`` `Failed to fetch image: ${response.statusText}` ``. -/
def fetchFailMessage (statusText : String) : String :=
  "Failed to fetch image: " ++ statusText

/-- The message of the wrapping error rethrown by `loadAvatar`'s catch:
`` `Failed to load external avatar: ${avatarUrl}. Error: ${error.message}` ``. -/
def loadAvatarWrapMessage (avatarUrl innerMessage : String) : String :=
  "Failed to load external avatar: " ++ avatarUrl ++ ". Error: " ++ innerMessage

/-- `loadAvatar`, with the environment made explicit: `localDecode` is the
local-file image decoder (`img.src = path`), `resp` the HTTP response for
the avatar URL, and `bodyDecode` the decode of the buffered response body
(`img.src = buffer`).  Failures carry the error message. -/
def loadAvatar (localDecode : String → Except String Image)
    (resp : HttpResponse) (bodyDecode : Except String Image)
    (avatarUrl : String) : Except String Image :=
  if isLocalPath avatarUrl then
    localDecode avatarUrl
  else if respOk resp then
    bodyDecode
  else
    Except.error (loadAvatarWrapMessage avatarUrl (fetchFailMessage resp.statusText))

/-- `loadBackground` (identical in `ProfileCard` and `RankCard`): a falsy
(empty) reference yields no bitmap and no error; otherwise the decode
oracle decides. -/
def loadBackground (bgDecode : String → Except String Image)
    (backgroundImage : String) : Except String (Option Image) :=
  if backgroundImage = "" then Except.ok none
  else (bgDecode backgroundImage).map some

/-- The load/abort behaviour of `RankCard.drawBackground`: result is
whether a background bitmap was drawn over the solid background color, or
the error that aborts the render.  (`ProfileCard.drawBackground` is
identical except for the overlay alpha constant, which does not affect
this result: see `profileDrawBackgroundResult`.) -/
def rankDrawBackgroundResult (bgDecode : String → Except String Image)
    (backgroundImage : String) : Except String Bool :=
  if backgroundImage ≠ "" then
    match loadBackground bgDecode backgroundImage with
    | Except.error e => Except.error e
    | Except.ok none => Except.ok false
    | Except.ok (some _) => Except.ok true
  else Except.ok false

/-- The load/abort behaviour of `ProfileCard.drawBackground` (same code
shape as `RankCard.drawBackground`). -/
def profileDrawBackgroundResult (bgDecode : String → Except String Image)
    (backgroundImage : String) : Except String Bool :=
  if backgroundImage ≠ "" then
    match loadBackground bgDecode backgroundImage with
    | Except.error e => Except.error e
    | Except.ok none => Except.ok false
    | Except.ok (some _) => Except.ok true
  else Except.ok false

/-! ## Word wrap (ProfileCard.drawText, bio block) -/

/-- JavaScript `bio.split(' ')` (single-character separator): split the
character list at every space. -/
def jsSplitSpaceAux : List Char → List Char → List (List Char)
  | [], cur => [cur.reverse]
  | c :: cs, cur =>
      if c = ' ' then cur.reverse :: jsSplitSpaceAux cs []
      else jsSplitSpaceAux cs (c :: cur)

/-- JavaScript `s.split(' ')` as a list of strings. -/
def jsSplitSpace (s : String) : List String :=
  (jsSplitSpaceAux s.data []).map (fun l => { data := l })

/-- The greedy word-wrap loop of `ProfileCard.drawText`: `line` starts
empty, `testLine = line + words[i] + ' '` is measured, and
`if (testWidth > maxWidth && i > 0)` the current line is flushed and a new
line starts with `words[i] + ' '`; otherwise `line = testLine`.  The final
partial line is always flushed.  Returns the flushed lines in order. -/
def wrapLoop (measure : String → ℚ) (maxWidth : ℚ) :
    List String → Nat → String → List String → List String
  | [], _, line, acc => acc ++ [line]
  | w :: ws, i, line, acc =>
      if maxWidth < measure (line ++ w ++ " ") ∧ 0 < i then
        wrapLoop measure maxWidth ws (i + 1) (w ++ " ") (acc ++ [line])
      else
        wrapLoop measure maxWidth ws (i + 1) (line ++ w ++ " ") acc

/-- The lines emitted for the bio by `ProfileCard.drawText`: the whole
block is guarded by `if (bio)` (skipped for the falsy empty string), and
the words are `bio.split(' ')`.  `measure` is `ctx.measureText(...).width`
and `maxWidth = canvas.width - (left + avatarSize + 60)`. -/
def bioWrapLines (measure : String → ℚ) (maxWidth : ℚ) (bio : String) :
    List String :=
  if bio = "" then []
  else wrapLoop measure maxWidth (jsSplitSpace bio) 0 "" []

/-! ## WelcomeCard drawing pipeline (for the background-independence claim)

The render is abstracted as the ordered list of drawing commands issued
against the canvas, each carrying every data-dependent parameter.  Two
renders that issue the same command list produce the same PNG. -/

/-- One abstract drawing command with its data-dependent parameters. -/
inductive DrawOp where
  | blurredAvatarBackground (avatar : Image) (blurRadius w h : ℚ)
  | gradientOverlay (stop0 stop1 : String) (x y w h : ℚ)
  | fillRect (color : String) (x y w h : ℚ)
  | text (bold : Bool) (size : ℚ) (color : String) (align : String)
      (s : String) (x y : ℚ)
  | memberCountText (size : ℚ) (color : String) (align : String)
      (n : ℚ) (x y : ℚ)
  | roundedCornerClip (radius w h : ℚ)
deriving DecidableEq, Repr

/-- The `WelcomeCard` render (`toBuffer`) as its command list, on a
1024×500 canvas: `drawBackground` (avatar drawn full-bleed through an
offscreen canvas with `filter = 'blur(8px)'`, then a vertical dark
gradient), `drawAvatar` (a no-op), `drawText` (centered title,
discriminator, server line, member count), `drawAccentBar`, and the
rounded-corner mask.  `avatar` is the bitmap produced by `loadAvatar`. -/
def welcomeDraw (avatar : Image) (c : WelcomeCardConfig) : List DrawOp :=
  [DrawOp.blurredAvatarBackground avatar 8 1024 500,
   DrawOp.gradientOverlay "rgba(0, 0, 0, 0.4)" "rgba(0, 0, 0, 0.7)" 0 0 1024 500,
   DrawOp.text true c.fontSize.title c.textColor "center" c.username 512
     (c.padding.top + 100)]
  ++ (if c.discriminator ≠ "" then
        [DrawOp.text false c.fontSize.subtitle "#AAAAAA" "center" c.discriminator
          512 (c.padding.top + 100 + c.fontSize.subtitle + 5)]
      else [])
  ++ [DrawOp.text true c.fontSize.subtitle c.textColor "center"
        ("Welcome to " ++ c.serverName ++ "!") 512
        (c.padding.top + 100 + c.fontSize.subtitle +
          (if c.discriminator ≠ "" then 40 else 60))]
  ++ (if 0 < c.memberCount then
        [DrawOp.memberCountText c.fontSize.memberCount "#AAAAAA" "center"
          c.memberCount 512
          (c.padding.top + 100 + c.fontSize.subtitle +
            (if c.discriminator ≠ "" then 80 else 100) +
            c.fontSize.memberCount + 10)]
      else [])
  ++ [DrawOp.fillRect c.accentColor c.padding.left
        (500 - c.padding.bottom - 5) (1024 - (c.padding.left + c.padding.right)) 5,
      DrawOp.roundedCornerClip c.borderRadius 1024 500]

/-- A full `WelcomeCard` render from caller options: normalize, then run
the drawing pipeline with the loaded avatar bitmap. -/
def welcomeRenderOps (avatar : Image) (o : WelcomeImageOptions) : List DrawOp :=
  welcomeDraw avatar (welcomeNormalize o)

/-! ## Helper lemmas -/

/-- Spec-side clamp, from the specification's words
`clamp(x, lo, hi)`: used to compare the code's progress computation
against the spec's formula. -/
def specClamp (x lo hi : ℚ) : ℚ :=
  min hi (max lo x)

/-- On finite operands with a positive denominator, `calculateProgress`
is the rational clamp of `c / n * 100` to `[0, 100]`. -/
theorem calculateProgress_num_of_pos (c n : ℚ) (hn : 0 < n) :
    calculateProgress (JSNum.num c) (JSNum.num n) =
      JSNum.num (min 100 (max 0 (c / n * 100))) := by
  simp [calculateProgress, JSNum.div, JSNum.mul, JSNum.jsMax, JSNum.jsMin, hn.ne']

/-- The spec's containment predicate for a normalized progress value: a
finite number lying in `[0, 100]`. -/
def progressInRange (p : JSNum) : Prop :=
  ∃ q : ℚ, p = JSNum.num q ∧ 0 ≤ q ∧ q ≤ 100

/-- Bare `RankCardOptions` with every optional field omitted. -/
def mkRankOptsBare (u av : String) (rk lv cx nx : ℚ) : RankCardOptions :=
  { username := u, discriminator := none, avatarUrl := av, rank := rk,
    level := lv, currentXP := cx, nextLevelXP := nx, progress := none,
    backgroundColor := none, textColor := none, accentColor := none,
    rankColor := none, levelColor := none, progressBarColor := none,
    progressBarBackgroundColor := none, backgroundImage := none,
    fontSize := none, padding := none, borderRadius := none,
    showProgress := none }

/-- Bare `ProfileCardOptions` with every optional field omitted. -/
def mkProfileOptsBare (u av : String) : ProfileCardOptions :=
  { username := u, discriminator := none, avatarUrl := av, status := none,
    statusColor := none, bio := none, badges := none,
    backgroundColor := none, textColor := none, accentColor := none,
    backgroundImage := none, fontSize := none, padding := none,
    borderRadius := none, layout := none }

/-- Bare `WelcomeImageOptions` with every optional field omitted. -/
def mkWelcomeOptsBare (u av sn : String) : WelcomeImageOptions :=
  { username := u, discriminator := none, avatarUrl := av,
    serverName := sn, memberCount := none, backgroundColor := none,
    textColor := none, accentColor := none, backgroundImage := none,
    fontSize := none, padding := none, borderRadius := none }

/-! ## Claims -/

/-- C2: for every `currentXP, nextLevelXP` with `nextLevelXP > 0`, the
derived default progress equals `clamp(currentXP/nextLevelXP*100, 0, 100)`;
`50/100 ↦ 50`, `150/100 ↦ 100`, `0 ↦ 0`; and when no `progress` option is
supplied the normalized configuration takes exactly this derived value. -/
theorem c2_rank_progress_formula :
    (∀ c n : ℚ, 0 < n →
      calculateProgress (JSNum.num c) (JSNum.num n) =
        JSNum.num (specClamp (c / n * 100) 0 100)) ∧
    calculateProgress (JSNum.num 50) (JSNum.num 100) = JSNum.num 50 ∧
    calculateProgress (JSNum.num 150) (JSNum.num 100) = JSNum.num 100 ∧
    (∀ n : ℚ, 0 < n →
      calculateProgress (JSNum.num 0) (JSNum.num n) = JSNum.num 0) ∧
    (∀ o : RankCardOptions, o.progress = none →
      (rankNormalize o).progress =
        calculateProgress (JSNum.num o.currentXP) (JSNum.num o.nextLevelXP)) := by
  refine ⟨?_, ?_, ?_, ?_, ?_⟩
  · intro c n hn
    rw [calculateProgress_num_of_pos c n hn, specClamp]
  · rw [calculateProgress_num_of_pos 50 100 (by norm_num)]
    norm_num
  · rw [calculateProgress_num_of_pos 150 100 (by norm_num)]
    norm_num
  · intro n hn
    rw [calculateProgress_num_of_pos 0 n hn]
    norm_num
  · intro o ho
    simp [rankNormalize, ho]

/-- Witness for C2 at `currentXP = 50`, `nextLevelXP = 100`. -/
theorem c2_rank_progress_formula_witness :
    calculateProgress (JSNum.num 50) (JSNum.num 100) =
      JSNum.num (specClamp (50 / 100 * 100) 0 100) :=
  c2_rank_progress_formula.1 50 100 (by norm_num)

/-- C4: `getStatusColor` is a pure total function mapping `online`,
`idle`, `dnd`, `offline` to their fixed swatches and every other string to
the offline color `#747F8D`. -/
theorem c4_status_color_total :
    getStatusColor "online" = "#43B581" ∧
    getStatusColor "idle" = "#FAA61A" ∧
    getStatusColor "dnd" = "#F04747" ∧
    getStatusColor "offline" = "#747F8D" ∧
    (∀ s : String, s ≠ "online" → s ≠ "idle" → s ≠ "dnd" → s ≠ "offline" →
      getStatusColor s = "#747F8D") := by
  refine ⟨by decide, by decide, by decide, by decide, ?_⟩
  intro s h1 h2 h3 h4
  simp [getStatusColor, h1, h2, h3, h4]

/-- Witness for C4 at the unrecognized status string `"streaming"`. -/
theorem c4_status_color_total_witness :
    getStatusColor "streaming" = "#747F8D" :=
  c4_status_color_total.2.2.2.2 "streaming" (by decide) (by decide)
    (by decide) (by decide)

/-- C1 counterexample: supplying `progress := 150` directly yields a
normalized progress of `150`, outside `[0, 100]` — a caller-supplied
truthy progress is stored without clamping
(`progress: options.progress || this.calculateProgress(...)`). -/
theorem c1_progress_range_counterexample :
    (rankNormalize
        { mkRankOptsBare "user" "avatar.png" 1 1 50 100 with
            progress := some 150 }).progress = JSNum.num 150 ∧
    ¬ progressInRange
        (rankNormalize
          { mkRankOptsBare "user" "avatar.png" 1 1 50 100 with
              progress := some 150 }).progress := by
  have h : (rankNormalize
      { mkRankOptsBare "user" "avatar.png" 1 1 50 100 with
          progress := some 150 }).progress = JSNum.num 150 := by
    simp [rankNormalize, mkRankOptsBare]
  refine ⟨h, ?_⟩
  rw [h]
  rintro ⟨q, hq, _, hle⟩
  rw [show q = 150 by injection hq with h; exact h.symm] at hle
  norm_num at hle

/-- C1 (amended): the normalized progress is guaranteed to lie in
`[0, 100]` when it is *derived* from `currentXP / nextLevelXP` with
`nextLevelXP > 0` (no progress supplied); a directly supplied nonzero
progress is stored as-is, without clamping. -/
theorem c1_progress_range_amended (o : RankCardOptions)
    (hp : o.progress = none) (hn : 0 < o.nextLevelXP) :
    progressInRange (rankNormalize o).progress := by
  have h : (rankNormalize o).progress =
      calculateProgress (JSNum.num o.currentXP) (JSNum.num o.nextLevelXP) := by
    simp [rankNormalize, hp]
  rw [h, calculateProgress_num_of_pos _ _ hn]
  refine ⟨_, rfl, ?_, min_le_left _ _⟩
  exact le_min (by norm_num) (le_max_left _ _)

/-- Witness for the amended C1 at `currentXP = 50`, `nextLevelXP = 100`,
no supplied progress. -/
theorem c1_progress_range_amended_witness :
    progressInRange
      (rankNormalize (mkRankOptsBare "user" "avatar.png" 1 1 50 100)).progress :=
  c1_progress_range_amended (mkRankOptsBare "user" "avatar.png" 1 1 50 100)
    rfl (by norm_num [mkRankOptsBare])

/-- C10: with `nextLevelXP = 0` and no supplied progress, the (total)
progress computation yields `100` when `currentXP > 0` (the division gives
`+∞`, which the clamp caps at 100) and `NaN` when `currentXP = 0`
(`0/0`), which the clamp propagates into the normalized configuration and
into the progress-bar fill width of `drawXPInfo`. -/
theorem c10_next_level_zero (o : RankCardOptions)
    (hp : o.progress = none) (hn : o.nextLevelXP = 0) :
    (0 < o.currentXP → (rankNormalize o).progress = JSNum.num 100) ∧
    (o.currentXP = 0 →
      (rankNormalize o).progress = JSNum.nan ∧
      rankProgressFillWidth (rankNormalize o) = JSNum.nan) := by
  have h : (rankNormalize o).progress =
      calculateProgress (JSNum.num o.currentXP) (JSNum.num 0) := by
    simp [rankNormalize, hp, hn]
  constructor
  · intro hc
    rw [h]
    simp [calculateProgress, JSNum.div, JSNum.mul, JSNum.jsMax, JSNum.jsMin,
      hc, hc.ne']
  · intro hc
    have hnan : (rankNormalize o).progress = JSNum.nan := by
      rw [h]
      simp [calculateProgress, JSNum.div, JSNum.mul, JSNum.jsMax, JSNum.jsMin, hc]
    refine ⟨hnan, ?_⟩
    rw [rankProgressFillWidth, hnan]
    simp [JSNum.mul, JSNum.div]

/-- Witness for C10 at `currentXP = 7`, `nextLevelXP = 0`: derived
progress is 100. -/
theorem c10_next_level_zero_witness :
    (rankNormalize (mkRankOptsBare "user" "avatar.png" 1 1 7 0)).progress =
      JSNum.num 100 :=
  (c10_next_level_zero (mkRankOptsBare "user" "avatar.png" 1 1 7 0)
    rfl rfl).1 (by norm_num [mkRankOptsBare])

/-- C7: omitting an optional field yields its documented default in the
normalized configuration, for all three card types: discriminator
`#0000`, background `#2C2F33`, text `#FFFFFF`, accent `#7289DA`, border
radius 10 (Profile, Rank) / 15 (Welcome), and padding 30 (Profile, Rank) /
60 (Welcome) uniformly on all four sides.  (That no optional field is left
unset after normalization holds by construction: the config types have no
optional fields.) -/
theorem c7_normalization_defaults (u av sn : String) (rk lv cx nx : ℚ) :
    ((rankNormalize (mkRankOptsBare u av rk lv cx nx)).discriminator = "#0000" ∧
     (rankNormalize (mkRankOptsBare u av rk lv cx nx)).backgroundColor = "#2C2F33" ∧
     (rankNormalize (mkRankOptsBare u av rk lv cx nx)).textColor = "#FFFFFF" ∧
     (rankNormalize (mkRankOptsBare u av rk lv cx nx)).accentColor = "#7289DA" ∧
     (rankNormalize (mkRankOptsBare u av rk lv cx nx)).borderRadius = 10 ∧
     (rankNormalize (mkRankOptsBare u av rk lv cx nx)).padding = ⟨30, 30, 30, 30⟩) ∧
    ((profileNormalize (mkProfileOptsBare u av)).discriminator = "#0000" ∧
     (profileNormalize (mkProfileOptsBare u av)).backgroundColor = "#2C2F33" ∧
     (profileNormalize (mkProfileOptsBare u av)).textColor = "#FFFFFF" ∧
     (profileNormalize (mkProfileOptsBare u av)).accentColor = "#7289DA" ∧
     (profileNormalize (mkProfileOptsBare u av)).borderRadius = 10 ∧
     (profileNormalize (mkProfileOptsBare u av)).padding = ⟨30, 30, 30, 30⟩) ∧
    ((welcomeNormalize (mkWelcomeOptsBare u av sn)).discriminator = "#0000" ∧
     (welcomeNormalize (mkWelcomeOptsBare u av sn)).backgroundColor = "#2C2F33" ∧
     (welcomeNormalize (mkWelcomeOptsBare u av sn)).textColor = "#FFFFFF" ∧
     (welcomeNormalize (mkWelcomeOptsBare u av sn)).accentColor = "#7289DA" ∧
     (welcomeNormalize (mkWelcomeOptsBare u av sn)).borderRadius = 15 ∧
     (welcomeNormalize (mkWelcomeOptsBare u av sn)).padding = ⟨60, 60, 60, 60⟩) :=
  ⟨⟨rfl, rfl, rfl, rfl, rfl, rfl⟩,
   ⟨rfl, rfl, rfl, rfl, rfl, rfl⟩,
   ⟨rfl, rfl, rfl, rfl, rfl, rfl⟩⟩

/-- C9: because normalization uses falsy-coalescing `||`, a supplied falsy
value is replaced by the default: border radius 0 becomes 10/10/15, a zero
font size or padding becomes its default, an empty-string color becomes
the default color, and an explicit progress of 0 on a Rank card is
discarded in favour of the XP-derived computation. -/
theorem c9_falsy_coalescing :
    (∀ o : ProfileCardOptions, o.borderRadius = some 0 →
      (profileNormalize o).borderRadius = 10) ∧
    (∀ o : RankCardOptions, o.borderRadius = some 0 →
      (rankNormalize o).borderRadius = 10) ∧
    (∀ o : WelcomeImageOptions, o.borderRadius = some 0 →
      (welcomeNormalize o).borderRadius = 15) ∧
    (∀ (o : ProfileCardOptions) (fs : ProfileFontSizeOptions),
      o.fontSize = some fs → fs.username = some 0 →
      (profileNormalize o).fontSize.username = 32) ∧
    (∀ (o : ProfileCardOptions) (p : PaddingOptions),
      o.padding = some p → p.top = some 0 →
      (profileNormalize o).padding.top = 30) ∧
    (∀ (o : WelcomeImageOptions) (p : PaddingOptions),
      o.padding = some p → p.top = some 0 →
      (welcomeNormalize o).padding.top = 60) ∧
    (∀ o : ProfileCardOptions, o.backgroundColor = some "" →
      (profileNormalize o).backgroundColor = "#2C2F33") ∧
    (∀ o : RankCardOptions, o.progress = some 0 →
      (rankNormalize o).progress =
        calculateProgress (JSNum.num o.currentXP) (JSNum.num o.nextLevelXP)) := by
  refine ⟨?_, ?_, ?_, ?_, ?_, ?_, ?_, ?_⟩
  · intro o h
    simp [profileNormalize, jsOrNum, h]
  · intro o h
    simp [rankNormalize, jsOrNum, h]
  · intro o h
    simp [welcomeNormalize, jsOrNum, h]
  · intro o fs h hf
    simp [profileNormalize, jsOrNum, h, hf]
  · intro o p h hp
    simp [profileNormalize, normalizePadding, jsOrNum, h, hp]
  · intro o p h hp
    simp [welcomeNormalize, normalizePadding, jsOrNum, h, hp]
  · intro o h
    simp [profileNormalize, jsOrStr, h]
  · intro o h
    simp [rankNormalize, h]

/-- Witness for C9: a profile card constructed with `borderRadius := 0`
gets the default radius 10. -/
theorem c9_falsy_coalescing_witness :
    (profileNormalize
      { mkProfileOptsBare "user" "avatar.png" with
          borderRadius := some 0 }).borderRadius = 10 :=
  c9_falsy_coalescing.1
    { mkProfileOptsBare "user" "avatar.png" with borderRadius := some 0 } rfl

/-- C6: for Profile and Rank cards, an absent background-image reference
(normalized to the empty string) yields no bitmap and no error, while an
explicitly provided reference whose load fails aborts the render with
that error — there is no fallback to the solid color. -/
theorem c6_background_optionality
    (bgDecode : String → Except String Image) (bg e : String) :
    (rankDrawBackgroundResult bgDecode "" = Except.ok false ∧
     profileDrawBackgroundResult bgDecode "" = Except.ok false) ∧
    (∀ o : RankCardOptions, o.backgroundImage = none →
      rankDrawBackgroundResult bgDecode (rankNormalize o).backgroundImage =
        Except.ok false) ∧
    (∀ o : ProfileCardOptions, o.backgroundImage = none →
      profileDrawBackgroundResult bgDecode
        (profileNormalize o).backgroundImage = Except.ok false) ∧
    (bg ≠ "" → bgDecode bg = Except.error e →
      rankDrawBackgroundResult bgDecode bg = Except.error e ∧
      profileDrawBackgroundResult bgDecode bg = Except.error e) := by
  refine ⟨⟨rfl, rfl⟩, ?_, ?_, ?_⟩
  · intro o h
    simp [rankNormalize, h, jsOrStr, rankDrawBackgroundResult]
  · intro o h
    simp [profileNormalize, h, jsOrStr, profileDrawBackgroundResult]
  · intro hbg he
    constructor
    · simp [rankDrawBackgroundResult, loadBackground, Except.map, hbg, he]
    · simp [profileDrawBackgroundResult, loadBackground, Except.map, hbg, he]

/-- Witness for C6: a decoder that always fails aborts the Rank and
Profile background stage for the reference `"http://x/bg.png"`. -/
theorem c6_background_optionality_witness :
    rankDrawBackgroundResult (fun _ => Except.error "decode failed")
        "http://x/bg.png" = Except.error "decode failed" ∧
    profileDrawBackgroundResult (fun _ => Except.error "decode failed")
        "http://x/bg.png" = Except.error "decode failed" :=
  (c6_background_optionality (fun _ => Except.error "decode failed")
    "http://x/bg.png" "decode failed").2.2.2 (by decide) rfl

/-- Every character list starts with itself. -/
theorem startsWithChars_self (l : List Char) : startsWithChars l l = true := by
  induction l with
  | nil => rfl
  | cons c cs ih => simp [startsWithChars, ih]

/-- Every character list occurs in itself. -/
theorem occursInChars_self (n : List Char) : occursInChars n n = true := by
  cases n with
  | nil => rfl
  | cons c cs => simp [occursInChars, startsWithChars_self]

/-- Prepending cannot destroy an occurrence. -/
theorem occursInChars_append_left (n : List Char) {t : List Char}
    (h : occursInChars n t = true) (x : List Char) :
    occursInChars n (x ++ t) = true := by
  induction x with
  | nil => simpa using h
  | cons c cs ih => simp [occursInChars, ih]

/-- C3 counterexample: fetching an avatar from a URL whose HTTP GET
returns status 404 (`statusText = "Not Found"`) rejects with an error
message that carries the status *text* but does not reference "404"
anywhere. -/
theorem c3_fetch_404_counterexample :
    loadAvatar (fun _ => Except.error "unused") ⟨404, "Not Found"⟩
        (Except.error "unused") "http://cdn.example.com/a.png" =
      Except.error
        "Failed to load external avatar: http://cdn.example.com/a.png. Error: Failed to fetch image: Not Found" ∧
    strIncludes
        "Failed to load external avatar: http://cdn.example.com/a.png. Error: Failed to fetch image: Not Found"
        "404" = false := by
  constructor
  · rfl
  · decide

/-- C3 (amended): for any remote avatar URL and any non-success HTTP
response (in particular a 404), every card type's `loadAvatar` rejects
with an error whose message carries the response's status *text* (for a
standard 404, "Not Found"); the numeric status code itself does not
appear unless the status text happens to contain it.  (`loadAvatar` is
textually identical in all three card classes.) -/
theorem c3_fetch_error_status_text
    (localDecode : String → Except String Image) (resp : HttpResponse)
    (bodyDecode : Except String Image) (url : String)
    (hl : isLocalPath url = false) (hr : respOk resp = false) :
    loadAvatar localDecode resp bodyDecode url =
      Except.error (loadAvatarWrapMessage url (fetchFailMessage resp.statusText)) ∧
    strIncludes (loadAvatarWrapMessage url (fetchFailMessage resp.statusText))
      resp.statusText = true := by
  constructor
  · simp [loadAvatar, hl, hr]
  · simp only [strIncludes, loadAvatarWrapMessage, fetchFailMessage,
      String.data_append, List.append_assoc]
    exact occursInChars_append_left _
      (occursInChars_append_left _
        (occursInChars_append_left _
          (occursInChars_append_left _ (occursInChars_self _) _) _) _) _

/-- Witness for the amended C3 at a concrete 404 response. -/
theorem c3_fetch_error_status_text_witness :
    loadAvatar (fun _ => Except.error "unused") ⟨404, "Not Found"⟩
        (Except.error "unused") "http://cdn.example.com/a.png" =
      Except.error
        (loadAvatarWrapMessage "http://cdn.example.com/a.png"
          (fetchFailMessage "Not Found")) ∧
    strIncludes
      (loadAvatarWrapMessage "http://cdn.example.com/a.png"
        (fetchFailMessage "Not Found")) "Not Found" = true :=
  c3_fetch_error_status_text (fun _ => Except.error "unused")
    ⟨404, "Not Found"⟩ (Except.error "unused") "http://cdn.example.com/a.png"
    (by decide) (by decide)

/-- C8: the Welcome card's rendered command list never depends on a
supplied `backgroundImage` option — its background stage always draws the
avatar itself full-bleed through a blur of radius 8 — so two option
records that agree on every field except `backgroundImage` render
identically, and the first command is always the blurred-avatar
background. -/
theorem c8_welcome_background_independence (avatar : Image)
    (o1 o2 : WelcomeImageOptions)
    (h1 : o1.username = o2.username)
    (h2 : o1.discriminator = o2.discriminator)
    (h3 : o1.avatarUrl = o2.avatarUrl)
    (h4 : o1.serverName = o2.serverName)
    (h5 : o1.memberCount = o2.memberCount)
    (h6 : o1.backgroundColor = o2.backgroundColor)
    (h7 : o1.textColor = o2.textColor)
    (h8 : o1.accentColor = o2.accentColor)
    (h9 : o1.fontSize = o2.fontSize)
    (h10 : o1.padding = o2.padding)
    (h11 : o1.borderRadius = o2.borderRadius) :
    welcomeRenderOps avatar o1 = welcomeRenderOps avatar o2 ∧
    (welcomeRenderOps avatar o1).head? =
      some (DrawOp.blurredAvatarBackground avatar 8 1024 500) := by
  cases o1
  cases o2
  simp_all only []
  exact ⟨rfl, rfl⟩

/-- Witness for C8: two welcome option records, one with
`backgroundImage := "http://bg.png"` and one without, render to the same
command list. -/
theorem c8_welcome_background_independence_witness :
    welcomeRenderOps ⟨0⟩
        { mkWelcomeOptsBare "user" "avatar.png" "server" with
            backgroundImage := some "http://bg.png" } =
      welcomeRenderOps ⟨0⟩ (mkWelcomeOptsBare "user" "avatar.png" "server") ∧
    (welcomeRenderOps ⟨0⟩
        { mkWelcomeOptsBare "user" "avatar.png" "server" with
            backgroundImage := some "http://bg.png" }).head? =
      some (DrawOp.blurredAvatarBackground ⟨0⟩ 8 1024 500) :=
  c8_welcome_background_independence ⟨0⟩
    { mkWelcomeOptsBare "user" "avatar.png" "server" with
        backgroundImage := some "http://bg.png" }
    (mkWelcomeOptsBare "user" "avatar.png" "server")
    rfl rfl rfl rfl rfl rfl rfl rfl rfl rfl rfl

/-- The space-split never returns an empty list of pieces. -/
theorem jsSplitSpaceAux_ne_nil (cs : List Char) :
    ∀ cur, jsSplitSpaceAux cs cur ≠ [] := by
  induction cs with
  | nil => intro cur; simp [jsSplitSpaceAux]
  | cons c cs ih =>
      intro cur
      by_cases hc : c = ' '
      · simp [jsSplitSpaceAux, hc]
      · simp only [jsSplitSpaceAux, if_neg hc]
        exact ih _

/-- `jsSplitSpace` never returns the empty list. -/
theorem jsSplitSpace_ne_nil (s : String) : jsSplitSpace s ≠ [] := by
  simp only [jsSplitSpace, ne_eq, List.map_eq_nil_iff]
  exact jsSplitSpaceAux_ne_nil s.data []

/-- Wrap-loop invariant: once past the first word (`0 < i`), if the
current line and every already-flushed line can only overflow by being a
single word (plus the appended space), then the same holds of every line
the loop ultimately emits.  Multi-word lines are only ever formed under a
passed `≤ maxWidth` check, so they never overflow. -/
theorem wrapLoop_overflow_single_word (measure : String → ℚ) (maxWidth : ℚ)
    (allWords : List String) :
    ∀ (ws : List String) (i : Nat) (line : String) (acc : List String),
      0 < i →
      (∀ w ∈ ws, w ∈ allWords) →
      (maxWidth < measure line → ∃ w ∈ allWords, line = w ++ " ") →
      (∀ ℓ ∈ acc, maxWidth < measure ℓ → ∃ w ∈ allWords, ℓ = w ++ " ") →
      ∀ ℓ ∈ wrapLoop measure maxWidth ws i line acc,
        maxWidth < measure ℓ → ∃ w ∈ allWords, ℓ = w ++ " " := by
  intro ws
  induction ws with
  | nil =>
      intro i line acc _ _ hline hacc ℓ hmem hover
      rw [wrapLoop] at hmem
      rcases List.mem_append.mp hmem with h | h
      · exact hacc ℓ h hover
      · rw [List.mem_singleton.mp h] at hover ⊢
        exact hline hover
  | cons w ws ih =>
      intro i line acc hi hsub hline hacc ℓ hmem hover
      rw [wrapLoop] at hmem
      by_cases hcond : maxWidth < measure (line ++ w ++ " ") ∧ 0 < i
      · rw [if_pos hcond] at hmem
        refine ih (i + 1) (w ++ " ") (acc ++ [line]) (Nat.succ_pos i)
          (fun x hx => hsub x (List.mem_cons_of_mem w hx))
          (fun _ => ⟨w, hsub w (List.mem_cons_self w ws), rfl⟩)
          ?_ ℓ hmem hover
        intro ℓ' hℓ' hov'
        rcases List.mem_append.mp hℓ' with h | h
        · exact hacc ℓ' h hov'
        · rw [List.mem_singleton.mp h] at hov' ⊢
          exact hline hov'
      · rw [if_neg hcond] at hmem
        have hle : ¬ maxWidth < measure (line ++ w ++ " ") := by
          intro hgt
          exact hcond ⟨hgt, hi⟩
        exact ih (i + 1) (line ++ w ++ " ") acc (Nat.succ_pos i)
          (fun x hx => hsub x (List.mem_cons_of_mem w hx))
          (fun hov => absurd hov hle) hacc ℓ hmem hover

/-- A concrete width measure for the counterexample: `"abc "` measures
40, the test line `"abc de "` measures 70, everything else 0. -/
def cexMeasure (s : String) : ℚ :=
  if s = "abc " then 40 else if s = "abc de " then 70 else 0

/-- C5 counterexample: with `cexMeasure`, max width 35 and bio
`"abc de"`, the emitted line `"abc "` measures 40 > 35, yet the word
`"abc"` by itself measures 0 ≤ 35 — the overflow comes from the trailing
space the algorithm appends before measuring, so an overflowing line need
not consist of a word that is *by itself* wider than the max width. -/
theorem c5_word_wrap_counterexample :
    "abc " ∈ bioWrapLines cexMeasure 35 "abc de" ∧
    (35 : ℚ) < cexMeasure "abc " ∧
    ¬ ∃ w ∈ jsSplitSpace "abc de",
        "abc " = w ++ " " ∧ (35 : ℚ) < cexMeasure w := by
  refine ⟨by decide, by decide, ?_⟩
  decide

/-- C5 (amended): for every bio, max width and width-measuring function,
every line the greedy word-wrap emits whose measured width exceeds the max
width consists of a single word of the bio (with the trailing space the
algorithm appends); it passes through unwrapped.  Every multi-word line is
only ever formed under a passed `≤ maxWidth` check, so it cannot
overflow.  (The overflow trigger measures the word *with* its appended
space, so the bare word itself need not exceed the max width.) -/
theorem c5_word_wrap_overflow_single_word (measure : String → ℚ)
    (maxWidth : ℚ) (bio : String) (ℓ : String)
    (hmem : ℓ ∈ bioWrapLines measure maxWidth bio)
    (hover : maxWidth < measure ℓ) :
    ∃ w ∈ jsSplitSpace bio, ℓ = w ++ " " := by
  rw [bioWrapLines] at hmem
  by_cases hbio : bio = ""
  · rw [if_pos hbio] at hmem
    exact absurd hmem (List.not_mem_nil ℓ)
  · rw [if_neg hbio] at hmem
    obtain ⟨w, ws, hsplit⟩ := List.exists_cons_of_ne_nil (jsSplitSpace_ne_nil bio)
    rw [hsplit] at hmem
    rw [wrapLoop, if_neg (by simp)] at hmem
    rw [String.empty_append] at hmem
    refine wrapLoop_overflow_single_word measure maxWidth (jsSplitSpace bio)
      ws 1 (w ++ " ") [] Nat.one_pos
      (fun x hx => by rw [hsplit]; exact List.mem_cons_of_mem w hx)
      (fun _ => ⟨w, by rw [hsplit]; exact List.mem_cons_self w ws, rfl⟩)
      (fun ℓ' hℓ' => absurd hℓ' (List.not_mem_nil ℓ'))
      ℓ hmem hover

/-- Witness for the amended C5: with `cexMeasure` and max width 35 on bio
`"abc de"`, the overflowing emitted line `"abc "` is the word `"abc"`
plus the appended space. -/
theorem c5_word_wrap_overflow_single_word_witness :
    ∃ w ∈ jsSplitSpace "abc de", "abc " = w ++ " " :=
  c5_word_wrap_overflow_single_word cexMeasure 35
    "abc de" "abc " (by decide) (by decide)
